import Mathlib

/-!
Verification development for src/qnx/grid_sim.cpp (QNX Grid Simulator).

The program is a single sequential loop: it seeds a pseudo-random
generator, prints four diagnostic lines, then forever increments a cycle
counter, prints a per-cycle diagnostic line, emits one JSON reading per
sector to stdout, and sleeps five seconds.

Modelling choices (shallow embedding):
* C++ doubles are modelled as rationals (ℚ).
* The random generator together with uniform_real_distribution is
  modelled by a stream rand : Nat → ℚ of canonical uniform draws in
  [0, 1); uniform_real_distribution(a, b) applied to a draw u yields
  a + u * (b - a).  Each call of emitPowerEvent consumes two successive
  draws (voltage first, then load), exactly as the source draws from the
  shared mt19937 generator.
* std::chrono::system_clock::now() is modelled by a stream
  clock : Nat → Nat of wall-clock instants in milliseconds since the
  Unix epoch; the j-th emitted reading performs the j-th clock call.
* std::gmtime is modelled by the standard proleptic-Gregorian
  civil-from-days conversion (POSIX time, no leap seconds).
* iostream output is modelled as a trace of events: one event per
  std::endl-terminated line on stdout (out) or stderr (err), plus one
  event per sleep_for call (sleep).
* std::fixed << std::setprecision(2) is modelled by rounding 100 * q to
  the nearest integer and printing integer digits, a dot and two
  zero-padded fraction digits.
-/

namespace GridSim

/-- Sector IDs (the SECTORS array in the source). -/
def SECTORS : List String := ["sector-1", "sector-2", "sector-3"]

/-- NUM_SECTORS constant in the source. -/
def NUM_SECTORS : Nat := 3

/-- LOAD_MIN constant in the source. -/
def LOAD_MIN : ℚ := 0

/-- LOAD_MAX constant in the source. -/
def LOAD_MAX : ℚ := 100

/-- EVENT_INTERVAL_SEC constant in the source (seconds between cycles). -/
def EVENT_INTERVAL_SEC : Nat := 5

/-- The decimal digit character for k (used with k < 10). -/
def digitChar (k : Nat) : Char := Char.ofNat (48 + k)

/-- Fuelled decimal rendering of a natural number (most significant digit
first).  The fuel argument only serves structural recursion; fuel = n + 1
always suffices for n. -/
def natToDigitsAux : Nat → Nat → List Char
  | 0, _ => []
  | fuel + 1, n =>
    if n < 10 then [digitChar (n % 10)]
    else natToDigitsAux fuel (n / 10) ++ [digitChar (n % 10)]

/-- Decimal digits of a natural number, models operator<< on integers. -/
def natToDigits (n : Nat) : List Char := natToDigitsAux (n + 1) n

/-- Decimal rendering of a natural number as a string. -/
def natRepr (n : Nat) : String := String.mk (natToDigits n)

/-- Model of std::fixed << std::setprecision(2) for a nonnegative value:
round 100 * q to the nearest integer n and print n / 100, '.', and the
two fraction digits of n % 100 (zero padded). -/
def fmtFixed2 (q : ℚ) : String :=
  String.mk (natToDigits ((round (100 * q)).toNat / 100) ++
    '.' :: [digitChar ((round (100 * q)).toNat / 10 % 10),
            digitChar ((round (100 * q)).toNat % 10)])

/-- Two zero-padded decimal digits (std::setw(2) with fill '0', faithful
for n < 100, which covers every use: month, day, hour, minute, second). -/
def pad2 (n : Nat) : List Char := [digitChar (n / 10 % 10), digitChar (n % 10)]

/-- Three zero-padded decimal digits (std::setw(3) with fill '0',
faithful for n < 1000; used for the millisecond field). -/
def pad3 (n : Nat) : List Char :=
  [digitChar (n / 100 % 10), digitChar (n / 10 % 10), digitChar (n % 10)]

/-- Civil (year, month, day) from days since 1970-01-01, the standard
algorithm for the proleptic Gregorian calendar; models std::gmtime's
date fields for nonnegative POSIX times. -/
def civilFromDays (z : Nat) : Nat × Nat × Nat :=
  let zd := z + 719468
  let era := zd / 146097
  let doe := zd % 146097
  let yoe := (doe - doe / 1460 + doe / 36524 - doe / 146096) / 365
  let y := yoe + era * 400
  let doy := doe - (365 * yoe + yoe / 4 - yoe / 100)
  let mp := (5 * doy + 2) / 153
  let d := doy - (153 * mp + 2) / 5 + 1
  let m := if mp < 10 then mp + 3 else mp - 9
  (if m ≤ 2 then y + 1 else y, m, d)

/-- Character list of getCurrentTimestamp for a wall-clock instant t in
milliseconds since the epoch: "%Y-%m-%dT%H:%M:%S" from gmtime of t/1000,
then '.', the millisecond count t % 1000 on three zero-padded digits,
and 'Z'. -/
def tsChars (t : Nat) : List Char :=
  natToDigits (civilFromDays (t / 1000 / 86400)).1 ++
    '-' :: pad2 (civilFromDays (t / 1000 / 86400)).2.1 ++
    '-' :: pad2 (civilFromDays (t / 1000 / 86400)).2.2 ++
    'T' :: pad2 (t / 1000 % 86400 / 3600) ++
    ':' :: pad2 (t / 1000 % 3600 / 60) ++
    ':' :: pad2 (t / 1000 % 60) ++
    '.' :: pad3 (t % 1000) ++ ['Z']

/-- getCurrentTimestamp in the source, as a function of the clock
reading t (milliseconds since the Unix epoch). -/
def getCurrentTimestamp (t : Nat) : String := String.mk (tsChars t)

/-- Model of one uniform_real_distribution(a, b) draw from a canonical
uniform value u in [0, 1). -/
def uniformDraw (a b u : ℚ) : ℚ := a + u * (b - a)

/-- The transient Reading entity: one synthetic measurement.  timestampMs
is the raw clock reading (milliseconds since the epoch) captured at
generation; the serialized line formats it with getCurrentTimestamp. -/
structure Reading where
  sector_id : String
  voltage : ℚ
  load : ℚ
  is_failure : Bool
  timestampMs : Nat
deriving DecidableEq

/-- emitPowerEvent in the source: draw voltage uniformly over
[0, 130), classify failure as voltage < 50, draw load uniformly over
[LOAD_MIN, LOAD_MAX), capture the timestamp.  u_voltage and u_load are
the two successive canonical draws taken from the generator. -/
def emitPowerEvent (sector_id : String) (u_voltage u_load : ℚ) (tMs : Nat) : Reading :=
  { sector_id := sector_id
    voltage := uniformDraw 0 130 u_voltage
    load := uniformDraw LOAD_MIN LOAD_MAX u_load
    is_failure := decide (uniformDraw 0 130 u_voltage < 50)
    timestampMs := tMs }

/-- The status string of a Reading as it appears in the JSON line. -/
def statusStr (r : Reading) : String := if r.is_failure then "failure" else "normal"

/-- The serialized JSON line for a Reading, exactly as assembled by the
stream insertions in emitPowerEvent (braces written as \x7b/\x7d). -/
def eventLine (r : Reading) : String :=
  "\x7b\"sector_id\":\"" ++ r.sector_id ++ "\",\"voltage\":" ++ fmtFixed2 r.voltage ++
    ",\"load\":" ++ fmtFixed2 r.load ++ ",\"timestamp\":\"" ++
    getCurrentTimestamp r.timestampMs ++ "\",\"status\":" ++
    (if r.is_failure then "\"failure\"" else "\"normal\"") ++ "\x7d"

/-- One line of the interleaved observable behaviour: a stdout line, a
stderr line, or a sleep of the given number of seconds. -/
inductive Ev where
  | out : String → Ev
  | err : String → Ev
  | sleep : Nat → Ev
deriving DecidableEq

/-- The per-cycle stderr progress line. -/
def cycLine (c : Nat) : String := "[QNX] deterministic loop - cycle " ++ natRepr c

/-- The four fixed stderr lines printed by main before the loop. -/
def startupMsgs : List String :=
  ["[QNX] Grid Simulator started",
   "[QNX] Emitting power events every " ++ natRepr EVENT_INTERVAL_SEC ++ " seconds",
   "[QNX] Sectors: sector-1, sector-2, sector-3",
   "[QNX] Deterministic loop"]

/-- The startup stderr events. -/
def startupEvents : List Ev := startupMsgs.map Ev.err

/-- The j-th reading emitted in a run (j counted from 0 across cycles):
sector SECTORS[j % 3], canonical draws number 2j and 2j+1, clock call
number j. -/
def emitAt (rand : Nat → ℚ) (clock : Nat → Nat) (j : Nat) : Reading :=
  emitPowerEvent (SECTORS.getD (j % NUM_SECTORS) "") (rand (2 * j)) (rand (2 * j + 1))
    (clock j)

/-- The events of cycle number c (1-based): the progress line on stderr,
then one stdout line per sector in order, then the 5 second sleep. -/
def cycleEvents (rand : Nat → ℚ) (clock : Nat → Nat) (c : Nat) : List Ev :=
  Ev.err (cycLine c) ::
    ((List.range NUM_SECTORS).map fun i =>
      Ev.out (eventLine (emitAt rand clock (NUM_SECTORS * (c - 1) + i)))) ++
    [Ev.sleep EVENT_INTERVAL_SEC]

/-- The observable trace of main after n complete cycles: the startup
stderr lines followed by the events of cycles 1, 2, ..., n. -/
def runTrace (rand : Nat → ℚ) (clock : Nat → Nat) (n : Nat) : List Ev :=
  startupEvents ++ (List.range n).flatMap fun k => cycleEvents rand clock (k + 1)

/-- The stderr lines of a trace, in order. -/
def errLines (tr : List Ev) : List String :=
  tr.filterMap fun e => match e with | Ev.err s => some s | _ => none

/-- The stdout lines of a trace, in order. -/
def outLines (tr : List Ev) : List String :=
  tr.filterMap fun e => match e with | Ev.out s => some s | _ => none

/-- Whether an event is a sleep (suspension point). -/
def isSleep : Ev → Bool
  | Ev.sleep _ => true
  | _ => false

/-- Checker for fixed-point two-decimal rendering: one or more digits,
a dot, then exactly two digits. -/
def isFixed2 (l : List Char) : Bool :=
  (!((l.takeWhile fun c => c.isDigit).isEmpty)) &&
    match l.dropWhile fun c => c.isDigit with
    | [p, a, b] => p == '.' && a.isDigit && b.isDigit
    | _ => false

/-- Character test: decimal digit. -/
def isDigitB (c : Char) : Bool := c.isDigit

/-- Character test: the dash separator. -/
def isDash (c : Char) : Bool := c == '-'

/-- Character test: the colon separator. -/
def isColon (c : Char) : Bool := c == ':'

/-- Character test: the date/time separator T. -/
def isTee (c : Char) : Bool := c == 'T'

/-- Character test: the decimal point. -/
def isDot (c : Char) : Bool := c == '.'

/-- Character test: the UTC designator Z. -/
def isZed (c : Char) : Bool := c == 'Z'

/-- Per-position character tests for the 24-character pattern
YYYY-MM-DDTHH:MM:SS.mmmZ. -/
def isoChecks : List (Char → Bool) :=
  [isDigitB, isDigitB, isDigitB, isDigitB, isDash,
   isDigitB, isDigitB, isDash, isDigitB, isDigitB, isTee,
   isDigitB, isDigitB, isColon, isDigitB, isDigitB, isColon,
   isDigitB, isDigitB, isDot, isDigitB, isDigitB, isDigitB, isZed]

/-- Apply a list of per-position character tests; the lists must have
equal length and every test must pass. -/
def checksAll : List (Char → Bool) → List Char → Bool
  | [], [] => true
  | f :: fs, c :: cs => f c && checksAll fs cs
  | _, _ => false

/-- Checker for the ISO-8601 UTC millisecond format
YYYY-MM-DDTHH:MM:SS.mmmZ (four-digit year). -/
def isIsoMs (l : List Char) : Bool := checksAll isoChecks l

/-! ### Lemmas about the decimal renderers -/

theorem digitChar_isDigit (k : Nat) (h : k < 10) : (digitChar k).isDigit = true := by
  interval_cases k <;> decide

theorem digitChar_mod_isDigit (k : Nat) : (digitChar (k % 10)).isDigit = true :=
  digitChar_isDigit _ (Nat.mod_lt k (by norm_num))

theorem natToDigitsAux_digits :
    ∀ fuel n : Nat, ∀ c ∈ natToDigitsAux fuel n, c.isDigit = true := by
  intro fuel
  induction fuel with
  | zero => intro n c hc; simp [natToDigitsAux] at hc
  | succ fuel ih =>
    intro n c hc
    by_cases h : n < 10
    · simp [natToDigitsAux, h] at hc
      subst hc
      exact digitChar_mod_isDigit n
    · simp [natToDigitsAux, h] at hc
      rcases hc with hc | hc
      · exact ih _ _ hc
      · subst hc
        exact digitChar_mod_isDigit n

theorem natToDigits_digits (n : Nat) : ∀ c ∈ natToDigits n, c.isDigit = true :=
  natToDigitsAux_digits (n + 1) n

theorem natToDigits_ne_nil (n : Nat) : natToDigits n ≠ [] := by
  simp only [natToDigits, natToDigitsAux]
  split <;> simp

theorem natToDigitsAux_irrel :
    ∀ n f g : Nat, n < f → n < g → natToDigitsAux f n = natToDigitsAux g n := by
  intro n
  induction n using Nat.strong_induction_on with
  | _ n ih =>
    intro f g hf hg
    cases f with
    | zero => omega
    | succ f =>
      cases g with
      | zero => omega
      | succ g =>
        simp only [natToDigitsAux]
        by_cases h : n < 10
        · simp [h]
        · simp only [if_neg h]
          have hdiv : n / 10 < n := Nat.div_lt_self (by omega) (by norm_num)
          rw [ih (n / 10) hdiv f g (by omega) (by omega)]

theorem natToDigits_step (n : Nat) (h : 10 ≤ n) :
    natToDigits n = natToDigits (n / 10) ++ [digitChar (n % 10)] := by
  have h1 : ¬ n < 10 := by omega
  have hdiv : n / 10 < n := Nat.div_lt_self (by omega) (by norm_num)
  rw [show natToDigits n = natToDigitsAux n (n / 10) ++ [digitChar (n % 10)] from by
    simp only [natToDigits, natToDigitsAux, if_neg h1]]
  rw [natToDigitsAux_irrel (n / 10) n (n / 10 + 1) (by omega) (Nat.lt_succ_self _)]
  rfl

theorem natToDigits_lt10 (n : Nat) (h : n < 10) : natToDigits n = [digitChar (n % 10)] := by
  simp only [natToDigits, natToDigitsAux, if_pos h]

theorem natToDigits_four (n : Nat) (h1 : 1000 ≤ n) (h2 : n ≤ 9999) :
    natToDigits n =
      [digitChar (n / 1000 % 10), digitChar (n / 100 % 10),
       digitChar (n / 10 % 10), digitChar (n % 10)] := by
  have e1 := natToDigits_step n (by omega)
  have e2 := natToDigits_step (n / 10) (by omega)
  have e3 := natToDigits_step (n / 10 / 10) (by omega)
  have e4 := natToDigits_lt10 (n / 10 / 10 / 10) (by omega)
  rw [e1, e2, e3, e4]
  have d1 : n / 10 / 10 / 10 = n / 1000 := by omega
  have d2 : n / 10 / 10 = n / 100 := by omega
  rw [d1, d2]
  simp

theorem takeWhile_all_append (p : Char → Bool) :
    ∀ (xs : List Char) (y : Char) (ys : List Char),
      (∀ x ∈ xs, p x = true) → p y = false →
      (xs ++ y :: ys).takeWhile p = xs ∧ (xs ++ y :: ys).dropWhile p = y :: ys := by
  intro xs
  induction xs with
  | nil =>
    intro y ys _ hy
    simp [List.takeWhile_cons, List.dropWhile_cons, hy]
  | cons a l ih =>
    intro y ys hall hy
    have ha : p a = true := hall a (by simp)
    have hrest := ih y ys (fun x hx => hall x (by simp [hx])) hy
    simp [List.takeWhile_cons, List.dropWhile_cons, ha, hrest.1, hrest.2]

theorem isFixed2_fmtFixed2 (q : ℚ) : isFixed2 (fmtFixed2 q).data = true := by
  have hdot : ('.' : Char).isDigit = false := by decide
  have htd := takeWhile_all_append (fun c => c.isDigit)
    (natToDigits ((round (100 * q)).toNat / 100)) '.'
    [digitChar ((round (100 * q)).toNat / 10 % 10), digitChar ((round (100 * q)).toNat % 10)]
    (natToDigits_digits _) hdot
  have hdata : (fmtFixed2 q).data =
      natToDigits ((round (100 * q)).toNat / 100) ++
        '.' :: [digitChar ((round (100 * q)).toNat / 10 % 10),
                digitChar ((round (100 * q)).toNat % 10)] := rfl
  rw [isFixed2, hdata, htd.1, htd.2]
  rcases hcs : natToDigits ((round (100 * q)).toNat / 100) with _ | ⟨c, cs⟩
  · exact absurd hcs (natToDigits_ne_nil _)
  · simp [digitChar_mod_isDigit]

/-! ### Lemmas about the timestamp renderer -/

theorem civil_year_bounds (z : Nat) (hz : z ≤ 2932531) :
    1600 ≤ (civilFromDays z).1 ∧ (civilFromDays z).1 ≤ 9999 := by
  simp only [civilFromDays]
  split <;> split <;> omega

theorem tsChars_eq (t : Nat) :
    tsChars t =
      natToDigits (civilFromDays (t / 1000 / 86400)).1 ++
        '-' :: pad2 (civilFromDays (t / 1000 / 86400)).2.1 ++
        '-' :: pad2 (civilFromDays (t / 1000 / 86400)).2.2 ++
        'T' :: pad2 (t / 1000 % 86400 / 3600) ++
        ':' :: pad2 (t / 1000 % 3600 / 60) ++
        ':' :: pad2 (t / 1000 % 60) ++
        '.' :: pad3 (t % 1000) ++ ['Z'] := rfl

/-! ### No stray newline inside a serialized line -/

theorem newline_ne_digitChar (k : Nat) : ('\n' : Char) ≠ digitChar (k % 10) := by
  intro h
  have hd := digitChar_mod_isDigit k
  rw [← h] at hd
  exact absurd hd (by decide)

theorem newline_not_mem_natToDigits (n : Nat) : ('\n' : Char) ∉ natToDigits n := by
  intro h
  exact absurd (natToDigits_digits n _ h) (by decide)

theorem newline_not_mem_fmtFixed2 (q : ℚ) : ('\n' : Char) ∉ (fmtFixed2 q).data := by
  intro h
  have hdata : (fmtFixed2 q).data =
      natToDigits ((round (100 * q)).toNat / 100) ++
        '.' :: [digitChar ((round (100 * q)).toNat / 10 % 10),
                digitChar ((round (100 * q)).toNat % 10)] := rfl
  rw [hdata] at h
  rcases List.mem_append.mp h with h1 | h1
  · exact newline_not_mem_natToDigits _ h1
  · simp only [List.mem_cons, List.mem_singleton, List.not_mem_nil, or_false] at h1
    rcases h1 with h1 | h1 | h1
    · exact absurd h1 (by decide)
    · exact newline_ne_digitChar _ h1
    · exact newline_ne_digitChar _ h1

theorem newline_not_mem_tsChars (t : Nat) : ('\n' : Char) ∉ tsChars t := by
  intro h
  rw [tsChars_eq] at h
  simp only [pad2, pad3, List.mem_append, List.mem_cons, List.mem_singleton,
    List.not_mem_nil, or_false, newline_not_mem_natToDigits, newline_ne_digitChar,
    (by decide : (('\n' : Char) = '-') = False), (by decide : (('\n' : Char) = ':') = False),
    (by decide : (('\n' : Char) = 'T') = False), (by decide : (('\n' : Char) = '.') = False),
    (by decide : (('\n' : Char) = 'Z') = False), false_or] at h

/-! ### Trace structure lemmas -/

theorem errLines_append (a b : List Ev) : errLines (a ++ b) = errLines a ++ errLines b := by
  simp [errLines, List.filterMap_append]

theorem outLines_append (a b : List Ev) : outLines (a ++ b) = outLines a ++ outLines b := by
  simp [outLines, List.filterMap_append]

theorem range_three : List.range 3 = [0, 1, 2] := rfl

theorem errLines_cycle (rand : Nat → ℚ) (clock : Nat → Nat) (c : Nat) :
    errLines (cycleEvents rand clock c) = [cycLine c] := by
  simp [errLines, cycleEvents, NUM_SECTORS, range_three]

theorem outLines_cycle (rand : Nat → ℚ) (clock : Nat → Nat) (c : Nat) :
    outLines (cycleEvents rand clock c) =
      [eventLine (emitAt rand clock (3 * (c - 1))),
       eventLine (emitAt rand clock (3 * (c - 1) + 1)),
       eventLine (emitAt rand clock (3 * (c - 1) + 2))] := by
  simp [outLines, cycleEvents, NUM_SECTORS, range_three]

theorem runTrace_zero (rand : Nat → ℚ) (clock : Nat → Nat) :
    runTrace rand clock 0 = startupEvents := by
  simp [runTrace]

theorem runTrace_succ (rand : Nat → ℚ) (clock : Nat → Nat) (n : Nat) :
    runTrace rand clock (n + 1) = runTrace rand clock n ++ cycleEvents rand clock (n + 1) := by
  simp [runTrace, List.range_succ]

theorem cycleEvents_length (rand : Nat → ℚ) (clock : Nat → Nat) (c : Nat) :
    (cycleEvents rand clock c).length = 5 := by
  simp [cycleEvents, NUM_SECTORS]

theorem runTrace_length (rand : Nat → ℚ) (clock : Nat → Nat) (n : Nat) :
    (runTrace rand clock n).length = 4 + 5 * n := by
  induction n with
  | zero => simp [runTrace_zero, startupEvents, startupMsgs]
  | succ n ih =>
    rw [runTrace_succ, List.length_append, ih, cycleEvents_length]
    omega

theorem filter_sleep_cycle (rand : Nat → ℚ) (clock : Nat → Nat) (c : Nat) :
    ((cycleEvents rand clock c).filter isSleep).length = 1 := by
  simp [cycleEvents, NUM_SECTORS, range_three, isSleep]

theorem filter_sleep_trace (rand : Nat → ℚ) (clock : Nat → Nat) (n : Nat) :
    ((runTrace rand clock n).filter isSleep).length = n := by
  induction n with
  | zero => simp [runTrace_zero, startupEvents, startupMsgs, isSleep]
  | succ n ih =>
    rw [runTrace_succ, List.filter_append, List.length_append, ih, filter_sleep_cycle]

theorem newline_not_mem_timestamp (t : Nat) :
    ('\n' : Char) ∉ (getCurrentTimestamp t).data :=
  newline_not_mem_tsChars t

/-! ### Claims -/

/-- C1: For every emitted Reading, the status field is "failure" if and
only if the voltage drawn for that Reading is strictly less than 50.0; a
voltage of exactly 50.0 or above yields status "normal". -/
theorem claim_c1_status_iff (sid : String) (uv ul : ℚ) (t : Nat) :
    (statusStr (emitPowerEvent sid uv ul t) = "failure" ↔
      (emitPowerEvent sid uv ul t).voltage < 50) ∧
    (statusStr (emitPowerEvent sid uv ul t) = "normal" ↔
      50 ≤ (emitPowerEvent sid uv ul t).voltage) := by
  have hfn : ("failure" : String) ≠ "normal" := by decide
  have hv : (emitPowerEvent sid uv ul t).voltage = uniformDraw 0 130 uv := rfl
  by_cases h : uniformDraw 0 130 uv < 50
  · have hs : statusStr (emitPowerEvent sid uv ul t) = "failure" := by
      simp [statusStr, emitPowerEvent, h]
    rw [hs, hv]
    exact ⟨⟨fun _ => h, fun _ => rfl⟩,
      ⟨fun hh => absurd hh hfn, fun hh => absurd hh (not_le.mpr h)⟩⟩
  · have hs : statusStr (emitPowerEvent sid uv ul t) = "normal" := by
      simp [statusStr, emitPowerEvent, h]
    rw [hs, hv]
    exact ⟨⟨fun hh => absurd hh (Ne.symm hfn), fun hh => absurd hh h⟩,
      ⟨fun _ => not_lt.mp h, fun _ => rfl⟩⟩

/-- C2: For every emitted Reading, 0.0 <= voltage <= 130.0 and
0.0 <= load <= 100.0, each value obtained from its own independent
canonical uniform draw over the fixed range. -/
theorem claim_c2_ranges (sid : String) (uv ul : ℚ) (t : Nat)
    (h1 : 0 ≤ uv) (h2 : uv < 1) (h3 : 0 ≤ ul) (h4 : ul < 1) :
    0 ≤ (emitPowerEvent sid uv ul t).voltage ∧
    (emitPowerEvent sid uv ul t).voltage ≤ 130 ∧
    0 ≤ (emitPowerEvent sid uv ul t).load ∧
    (emitPowerEvent sid uv ul t).load ≤ 100 := by
  have hv : (emitPowerEvent sid uv ul t).voltage = uv * 130 := by
    simp [emitPowerEvent, uniformDraw]
  have hl : (emitPowerEvent sid uv ul t).load = ul * 100 := by
    simp [emitPowerEvent, uniformDraw, LOAD_MIN, LOAD_MAX]
  rw [hv, hl]
  refine ⟨mul_nonneg h1 (by norm_num), by nlinarith,
    mul_nonneg h3 (by norm_num), by nlinarith⟩

theorem claim_c2_witness :
    ((0 : ℚ) ≤ 1 / 2 ∧ (1 / 2 : ℚ) < 1) ∧
    (0 ≤ (emitPowerEvent "sector-1" (1 / 2) (1 / 2) 0).voltage ∧
     (emitPowerEvent "sector-1" (1 / 2) (1 / 2) 0).voltage ≤ 130 ∧
     0 ≤ (emitPowerEvent "sector-1" (1 / 2) (1 / 2) 0).load ∧
     (emitPowerEvent "sector-1" (1 / 2) (1 / 2) 0).load ≤ 100) :=
  ⟨⟨by norm_num, by norm_num⟩,
   claim_c2_ranges "sector-1" (1 / 2) (1 / 2) 0
     (by norm_num) (by norm_num) (by norm_num) (by norm_num)⟩

/-- C3: In every cycle, exactly one Reading is generated and emitted per
configured sector, in the fixed configured order sector-1, sector-2,
sector-3, so each cycle writes exactly three stdout lines in that sector
order (cycle c is 1-based; its readings have global indices
3*(c-1), 3*(c-1)+1, 3*(c-1)+2). -/
theorem claim_c3_cycle_sectors (rand : Nat → ℚ) (clock : Nat → Nat) (c : Nat) :
    outLines (cycleEvents rand clock c) =
      [eventLine (emitAt rand clock (3 * (c - 1))),
       eventLine (emitAt rand clock (3 * (c - 1) + 1)),
       eventLine (emitAt rand clock (3 * (c - 1) + 2))] ∧
    (outLines (cycleEvents rand clock c)).length = 3 ∧
    (List.range 3).map (fun i => (emitAt rand clock (3 * (c - 1) + i)).sector_id) =
      SECTORS := by
  refine ⟨outLines_cycle rand clock c, by rw [outLines_cycle]; rfl, ?_⟩
  have h0 : 3 * (c - 1) % 3 = 0 := by omega
  have h1 : (3 * (c - 1) + 1) % 3 = 1 := by omega
  have h2 : (3 * (c - 1) + 2) % 3 = 2 := by omega
  simp [range_three, emitAt, emitPowerEvent, NUM_SECTORS, h0, h1, h2, SECTORS]

/-- C4: Every stdout line is one JSON object with exactly the five keys
sector_id, voltage, load, timestamp, status, in that order with those
exact key names; voltage and load are rendered in fixed-point notation
with exactly two fractional digits; the line ends in the closing brace
(no trailing whitespace) and contains no newline (one event per line). -/
theorem claim_c4_line_format (rand : Nat → ℚ) (clock : Nat → Nat) (j : Nat) :
    eventLine (emitAt rand clock j) =
      "\x7b\"sector_id\":\"" ++ (emitAt rand clock j).sector_id ++ "\",\"voltage\":" ++
        fmtFixed2 (emitAt rand clock j).voltage ++ ",\"load\":" ++
        fmtFixed2 (emitAt rand clock j).load ++ ",\"timestamp\":\"" ++
        getCurrentTimestamp (emitAt rand clock j).timestampMs ++ "\",\"status\":" ++
        (if (emitAt rand clock j).is_failure then "\"failure\"" else "\"normal\"") ++
        "\x7d" ∧
    isFixed2 (fmtFixed2 (emitAt rand clock j).voltage).data = true ∧
    isFixed2 (fmtFixed2 (emitAt rand clock j).load).data = true ∧
    (eventLine (emitAt rand clock j)).data.getLast? = some '\x7d' ∧
    ('\n' : Char) ∉ (eventLine (emitAt rand clock j)).data := by
  refine ⟨rfl, isFixed2_fmtFixed2 _, isFixed2_fmtFixed2 _, ?_, ?_⟩
  · rw [show (eventLine (emitAt rand clock j)).data =
      ("\x7b\"sector_id\":\"" ++ (emitAt rand clock j).sector_id ++ "\",\"voltage\":" ++
        fmtFixed2 (emitAt rand clock j).voltage ++ ",\"load\":" ++
        fmtFixed2 (emitAt rand clock j).load ++ ",\"timestamp\":\"" ++
        getCurrentTimestamp (emitAt rand clock j).timestampMs ++ "\",\"status\":" ++
        (if (emitAt rand clock j).is_failure then "\"failure\"" else "\"normal\"")).data ++
        ['\x7d'] from rfl]
    exact List.getLast?_concat _
  · intro hmem
    have h3 : j % NUM_SECTORS = 0 ∨ j % NUM_SECTORS = 1 ∨ j % NUM_SECTORS = 2 := by
      simp only [NUM_SECTORS]
      omega
    have hsect : (emitAt rand clock j).sector_id = "sector-1" ∨
        (emitAt rand clock j).sector_id = "sector-2" ∨
        (emitAt rand clock j).sector_id = "sector-3" := by
      rcases h3 with h | h | h <;> simp [emitAt, emitPowerEvent, SECTORS, h]
    rcases hsect with hs | hs | hs <;>
      cases hf : (emitAt rand clock j).is_failure <;>
        simp only [eventLine, hs, hf, if_true, if_false, Bool.false_eq_true,
          Bool.true_eq_false, ite_true, ite_false, String.data_append, List.mem_append,
          newline_not_mem_fmtFixed2, newline_not_mem_timestamp,
          (by decide : ¬ ('\n' : Char) ∈ ("\x7b\"sector_id\":\"" : String).data),
          (by decide : ¬ ('\n' : Char) ∈ ("\",\"voltage\":" : String).data),
          (by decide : ¬ ('\n' : Char) ∈ (",\"load\":" : String).data),
          (by decide : ¬ ('\n' : Char) ∈ (",\"timestamp\":\"" : String).data),
          (by decide : ¬ ('\n' : Char) ∈ ("\",\"status\":" : String).data),
          (by decide : ¬ ('\n' : Char) ∈ ("\"failure\"" : String).data),
          (by decide : ¬ ('\n' : Char) ∈ ("\"normal\"" : String).data),
          (by decide : ¬ ('\n' : Char) ∈ ("\x7d" : String).data),
          (by decide : ¬ ('\n' : Char) ∈ ("sector-1" : String).data),
          (by decide : ¬ ('\n' : Char) ∈ ("sector-2" : String).data),
          (by decide : ¬ ('\n' : Char) ∈ ("sector-3" : String).data),
          or_false, false_or] at hmem

/-- C5: There is a drawn voltage v with 49.995 <= v < 50.0 whose record
renders the voltage field as 50.00 (two-decimal rounding) while the
status field is "failure": the status/voltage iff-invariant holds for
the internally drawn value but not for the printed rounded value. -/
theorem claim_c5_rounding_boundary :
    ∃ u : ℚ, 0 ≤ u ∧ u < 1 ∧
      49995 / 1000 ≤ (emitPowerEvent "sector-1" u 0 0).voltage ∧
      (emitPowerEvent "sector-1" u 0 0).voltage < 50 ∧
      (emitPowerEvent "sector-1" u 0 0).is_failure = true ∧
      fmtFixed2 (emitPowerEvent "sector-1" u 0 0).voltage = "50.00" ∧
      statusStr (emitPowerEvent "sector-1" u 0 0) = "failure" := by
  refine ⟨12499 / 32500, by norm_num, by norm_num, ?_, ?_, ?_, ?_, ?_⟩
  all_goals
    have hv : (emitPowerEvent "sector-1" (12499 / 32500) 0 0).voltage = 12499 / 250 := by
      simp [emitPowerEvent, uniformDraw]
      norm_num
  · rw [hv]; norm_num
  · rw [hv]; norm_num
  · simp only [emitPowerEvent, uniformDraw, decide_eq_true_eq]
    norm_num
  · rw [hv]
    have h100 : (round (100 * (12499 / 250 : ℚ))).toNat = 5000 := by
      rw [round_eq]
      norm_num
      rfl
    rw [show fmtFixed2 (12499 / 250 : ℚ) =
      String.mk (natToDigits ((round (100 * (12499 / 250 : ℚ))).toNat / 100) ++
        '.' :: [digitChar ((round (100 * (12499 / 250 : ℚ))).toNat / 10 % 10),
                digitChar ((round (100 * (12499 / 250 : ℚ))).toNat % 10)]) from rfl, h100]
    decide
  · have hfail : (emitPowerEvent "sector-1" (12499 / 32500) 0 0).is_failure = true := by
      simp only [emitPowerEvent, uniformDraw, decide_eq_true_eq]
      norm_num
    simp [statusStr, hfail]

/-- C6: Every emitted timestamp is formatted as an ISO-8601 UTC string
with millisecond precision and a Z suffix (YYYY-MM-DDTHH:MM:SS.mmmZ);
for an instant with millisecond component zero, the fractional part is
rendered as three zero digits (.000), not omitted.  The instant t (ms
since the Unix epoch) is bounded so the year has four digits. -/
theorem claim_c6_timestamp_format (t : Nat) (h : t < 253370764800000) :
    isIsoMs (getCurrentTimestamp t).data = true ∧
    (t % 1000 = 0 → (getCurrentTimestamp t).data.drop 19 = ['.', '0', '0', '0', 'Z']) := by
  have hz : t / 1000 / 86400 ≤ 2932531 := by omega
  have hy := civil_year_bounds (t / 1000 / 86400) hz
  have hdig := natToDigits_four (civilFromDays (t / 1000 / 86400)).1 (by omega) hy.2
  constructor
  · show isIsoMs (tsChars t) = true
    rw [tsChars_eq, hdig]
    simp [isIsoMs, isoChecks, checksAll, pad2, pad3, isDigitB, isDash, isColon, isTee,
      isDot, isZed, digitChar_mod_isDigit]
  · intro h0
    show (tsChars t).drop 19 = ['.', '0', '0', '0', 'Z']
    rw [tsChars_eq, hdig, h0]
    simp [pad2, pad3]
    decide

theorem claim_c6_witness :
    (0 : Nat) < 253370764800000 ∧
    (isIsoMs (getCurrentTimestamp 0).data = true ∧
     ((0 : Nat) % 1000 = 0 →
       (getCurrentTimestamp 0).data.drop 19 = ['.', '0', '0', '0', 'Z'])) :=
  ⟨by norm_num, claim_c6_timestamp_format 0 (by norm_num)⟩

/-- C7: Cycles are numbered starting at 1 and the counter increments by
exactly 1 per cycle with no reset (the stderr progress lines of an
n-cycle trace carry the numbers 1, ..., n in order); at the start of
every cycle, before any of that cycle's Readings, exactly one diagnostic
line reporting the cycle number goes to the diagnostic stream. -/
theorem claim_c7_cycle_numbering (rand : Nat → ℚ) (clock : Nat → Nat) (n : Nat) :
    errLines (runTrace rand clock n) =
      startupMsgs ++ (List.range n).map (fun k => cycLine (k + 1)) ∧
    ∀ c : Nat, (cycleEvents rand clock c).head? = some (Ev.err (cycLine c)) := by
  constructor
  · induction n with
    | zero => simp [runTrace_zero, errLines, startupEvents, startupMsgs]
    | succ n ih =>
      rw [runTrace_succ, errLines_append, ih, errLines_cycle, List.range_succ]
      simp
  · intro c
    rfl

/-- C8: After the Readings of a cycle, the program suspends for the
fixed 5-second interval, the cycle's sole suspension point (the sleep is
the last event of every cycle and each cycle holds exactly one sleep);
the loop has no internal exit: every n-cycle trace extends the previous
one and traces grow without bound. -/
theorem claim_c8_loop_structure (rand : Nat → ℚ) (clock : Nat → Nat) (n : Nat) :
    runTrace rand clock (n + 1) = runTrace rand clock n ++ cycleEvents rand clock (n + 1) ∧
    (cycleEvents rand clock (n + 1)).getLast? = some (Ev.sleep EVENT_INTERVAL_SEC) ∧
    ((cycleEvents rand clock (n + 1)).filter isSleep).length = 1 ∧
    ((runTrace rand clock n).filter isSleep).length = n ∧
    (runTrace rand clock n).length < (runTrace rand clock (n + 1)).length := by
  refine ⟨runTrace_succ rand clock n, ?_, filter_sleep_cycle rand clock (n + 1),
    filter_sleep_trace rand clock n, ?_⟩
  · rw [show cycleEvents rand clock (n + 1) =
      (Ev.err (cycLine (n + 1)) ::
        ((List.range NUM_SECTORS).map fun i =>
          Ev.out (eventLine (emitAt rand clock (NUM_SECTORS * (n + 1 - 1) + i))))) ++
        [Ev.sleep EVENT_INTERVAL_SEC] from rfl]
    exact List.getLast?_concat _
  · rw [runTrace_length, runTrace_length]
    omega

/-- C9: Each Reading captures its own clock instant (the j-th emitted
Reading performs the j-th clock call, not shared across sectors of a
cycle), and whenever the wall clock is non-decreasing the timestamps of
consecutively emitted Readings are monotonically non-decreasing. -/
theorem claim_c9_timestamps_monotone (rand : Nat → ℚ) (clock : Nat → Nat)
    (hclock : ∀ i j : Nat, i ≤ j → clock i ≤ clock j) :
    (∀ j : Nat, (emitAt rand clock j).timestampMs = clock j) ∧
    ∀ j k : Nat, j ≤ k →
      (emitAt rand clock j).timestampMs ≤ (emitAt rand clock k).timestampMs := by
  exact ⟨fun j => rfl, fun j k h => hclock j k h⟩

theorem claim_c9_witness :
    (∀ i j : Nat, i ≤ j → (fun u : Nat => u) i ≤ (fun u : Nat => u) j) ∧
    ((∀ j : Nat, (emitAt (fun _ => (0 : ℚ)) (fun u => u) j).timestampMs = (fun u : Nat => u) j) ∧
     ∀ j k : Nat, j ≤ k →
       (emitAt (fun _ => (0 : ℚ)) (fun u => u) j).timestampMs ≤
         (emitAt (fun _ => (0 : ℚ)) (fun u => u) k).timestampMs) :=
  ⟨fun _ _ h => h,
   claim_c9_timestamps_monotone (fun _ => (0 : ℚ)) (fun u => u) (fun _ _ h => h)⟩

/-- C10: The observable output is a deterministic function of the two
entropy inputs: two runs that consume equal canonical-uniform draw
streams (as produced by equal generator seeds) and observe equal clock
streams produce identical traces (stdout records, diagnostic lines and
sleeps alike); nothing else influences the emitted values. -/
theorem claim_c10_deterministic (r1 r2 : Nat → ℚ) (c1 c2 : Nat → Nat) (n : Nat)
    (hr : ∀ i, r1 i = r2 i) (hc : ∀ i, c1 i = c2 i) :
    runTrace r1 c1 n = runTrace r2 c2 n := by
  rw [funext hr, funext hc]

theorem claim_c10_witness :
    (∀ i : Nat, (fun _ : Nat => (0 : ℚ)) i = (fun _ : Nat => (0 : ℚ)) i) ∧
    (∀ i : Nat, (fun u : Nat => u) i = (fun u : Nat => u) i) ∧
    runTrace (fun _ => (0 : ℚ)) (fun u => u) 2 = runTrace (fun _ => (0 : ℚ)) (fun u => u) 2 :=
  ⟨fun _ => rfl, fun _ => rfl,
   claim_c10_deterministic (fun _ => (0 : ℚ)) (fun _ => (0 : ℚ)) (fun u => u) (fun u => u) 2
     (fun _ => rfl) (fun _ => rfl)⟩

end GridSim
